import Mathlib

/-!
Verification development for a marketplace price/volume monitor.

The program maintains, per tracked item, a history of observation records
(timestamp, median price, sales in the trailing 24 hours), derives long- and
short-window statistical baselines from that history, and evaluates a family
of deviation detectors (price discount, volume spike, combo, and pump
sub-signals) gated by per-item cooldowns.

Shallow-embedding conventions:
  * Time is measured in minutes and represented by rationals; a span of
    d days is d * 1440 minutes, a span of h hours is h * 60 minutes.
  * A stored timestamp string is represented by the result of parsing it:
    an optional rational instant. The value none stands for a malformed or
    unparseable stored timestamp string (the parse in the program raises,
    and callers either catch that exception or do not - both behaviours are
    modelled explicitly below).
  * Prices and sales counts are rationals; an absent value is none.
  * Fallible operations (the ones where the program can raise past a local
    handler) return Option; none is the raised-exception outcome.
-/

namespace Monitor

/-- Field selector for history records: the two numeric fields the windowed
queries extract. -/
inductive Field
  | median
  | sales24h
deriving DecidableEq, Repr

/-- One stored observation record: parsed timestamp (none when the stored
string is malformed), optional median price, optional sales count. -/
structure Obs where
  ts : Option ℚ
  median : Option ℚ
  sales24h : Option ℚ
deriving DecidableEq, Repr

/-- Extract the requested field of a record. -/
def Obs.getField (p : Obs) : Field → Option ℚ
  | Field.median => p.median
  | Field.sales24h => p.sales24h

/-- Latest snapshot stored per item: median, ask, sales count and the parsed
timestamp of the snapshot (none when unparseable). -/
structure LastSnap where
  median : Option ℚ
  ask : Option ℚ
  sales24h : ℚ
  ts : Option ℚ
deriving DecidableEq, Repr

/-- Per-item stored state: latest snapshot, history of records, and the
parsed last-fired instant of the combo alert (none when absent or
unparseable). -/
structure ItemState where
  last : Option LastSnap
  history : List Obs
  comboAlert : Option ℚ
deriving DecidableEq, Repr

/-- The empty state a never-seen item starts from. -/
def ItemState.empty : ItemState := ⟨none, [], none⟩

/-- Long-window query (source: window_values). Returns, in history order, the
non-absent values of the requested field among records whose timestamp parses
and is at least now - days * 1440 minutes. A record whose stored timestamp is
malformed is skipped silently (the parse is wrapped in a local handler). -/
def window_values (hist : List Obs) (now : ℚ) (days : ℚ) (key : Field) : List ℚ :=
  let cutoff := now - days * 1440
  hist.filterMap fun p =>
    match p.ts with
    | none => none
    | some t => if cutoff ≤ t then p.getField key else none

/-- Short-window query (source: short_window). Same filtering as
window_values but over a span in minutes, returning both the values and the
timestamps of the matching records. -/
def short_window (hist : List Obs) (now : ℚ) (minutes : ℚ) (key : Field) :
    List ℚ × List ℚ :=
  match hist with
  | [] => ([], [])
  | p :: rest =>
    let tail := short_window rest now minutes key
    match p.ts with
    | none => tail
    | some t =>
      if now - minutes ≤ t then
        match p.getField key with
        | some v => (v :: tail.1, t :: tail.2)
        | none => tail
      else tail

/-- Median of a list of rationals as the statistics primitive computes it:
sort, take the middle element for odd length, the mean of the two middle
elements for even length. Only meaningful on nonempty lists; callers guard
emptiness. -/
def median_of (l : List ℚ) : ℚ :=
  let s := List.insertionSort (· ≤ ·) l
  if l.length % 2 = 1 then s.getD (l.length / 2) 0
  else (s.getD (l.length / 2 - 1) 0 + s.getD (l.length / 2) 0) / 2

/-- Robust median (source: robust_median): none on an empty collection,
otherwise the median. The mean fallback of the source is unreachable for
nonempty numeric input because the statistics primitive only fails on empty
input, and the numeric filter is the identity here since every modelled
value is numeric. -/
def robust_median (l : List ℚ) : Option ℚ :=
  if l = [] then none else some (median_of l)

/-- Robust mean (source: robust_mean): none on an empty collection, otherwise
the arithmetic mean. -/
def robust_mean (l : List ℚ) : Option ℚ :=
  if l = [] then none else some (l.sum / l.length)

/-- Which window finally supplied the long baseline. -/
inductive WindowUsed
  | seven
  | three
  | all
deriving DecidableEq, Repr

/-- Long-window baseline calculator (source: baselines_from_history), with
the graduated fallback: the 7-day window when both field collections reach
min_points, else the 3-day window when both reach max 6 (min_points / 2),
else the whole retained history. Returns (median baseline, sales baseline,
window used, total history length). -/
def baselines_from_history (rec : ItemState) (now : ℚ) (min_points : ℕ) :
    Option ℚ × Option ℚ × WindowUsed × ℕ :=
  let hist := rec.history
  let m7 := window_values hist now 7 Field.median
  let s7 := window_values hist now 7 Field.sales24h
  if m7.length < min_points ∨ s7.length < min_points then
    let m3 := window_values hist now 3 Field.median
    let s3 := window_values hist now 3 Field.sales24h
    if max 6 (min_points / 2) ≤ m3.length ∧ max 6 (min_points / 2) ≤ s3.length then
      (robust_median m3, robust_mean s3, WindowUsed.three, hist.length)
    else
      let all_m := hist.filterMap (fun p => p.median)
      let all_s := hist.filterMap (fun p => p.sales24h)
      (robust_median all_m, robust_mean all_s, WindowUsed.all, hist.length)
  else
    (robust_median m7, robust_mean s7, WindowUsed.seven, hist.length)

/-- Sample count of the window that actually supplied the baseline, as the
specification defines sample_count: the sizes of the two value collections of
the tier baselines_from_history selects. This definition follows the words of
the specification; it is the quantity the claim about detector minimum-sample
gating speaks of. -/
def baseline_window_counts (rec : ItemState) (now : ℚ) (min_points : ℕ) : ℕ × ℕ :=
  let hist := rec.history
  let m7 := window_values hist now 7 Field.median
  let s7 := window_values hist now 7 Field.sales24h
  if m7.length < min_points ∨ s7.length < min_points then
    let m3 := window_values hist now 3 Field.median
    let s3 := window_values hist now 3 Field.sales24h
    if max 6 (min_points / 2) ≤ m3.length ∧ max 6 (min_points / 2) ≤ s3.length then
      (m3.length, s3.length)
    else
      ((hist.filterMap (fun p => p.median)).length,
       (hist.filterMap (fun p => p.sales24h)).length)
  else
    (m7.length, s7.length)

/-- Configuration surface the engine consumes (source: the values read from
the configuration mapping in main). Counts are naturals, fractions and spans
are rationals; spans are converted to minutes where the source builds time
deltas. -/
structure Config where
  min_sales : ℕ
  soft_pct : ℚ
  deep_pct : ℚ
  p_min_pts : ℕ
  spike_mult : ℚ
  v_min_pts : ℕ
  combo_cd_h : ℚ
  short_minutes : ℚ
  pump_min_pts : ℕ
  price_jump_pct : ℚ
  ask_jump_pct : ℚ
  breakout_n : ℕ
  breakout_eps : ℚ
  momentum_mult : ℚ
  confirm_price : ℚ
deriving DecidableEq, Repr

/-- The documented default configuration values. -/
def defaultConfig : Config :=
  { min_sales := 1
    soft_pct := 90 / 100
    deep_pct := 85 / 100
    p_min_pts := 12
    spike_mult := 15 / 10
    v_min_pts := 12
    combo_cd_h := 6
    short_minutes := 120
    pump_min_pts := 4
    price_jump_pct := 8 / 100
    ask_jump_pct := 10 / 100
    breakout_n := 6
    breakout_eps := 3 / 100
    momentum_mult := 18 / 10
    confirm_price := 4 / 100 }

/-- Rough estimate of sales since the previous run (source:
estimate_new_sales). None when any input is absent; otherwise the linear
decay estimate, truncated to an integer when positive and clamped at zero
otherwise. Truncation of a positive rational is its floor. -/
def estimate_new_sales (prev curr dt_minutes : Option ℚ) : Option ℤ :=
  match prev, curr, dt_minutes with
  | some p, some c, some dt =>
    let factor := max 0 (min 1 (dt / 1440))
    let est := c - p * (1 - factor)
    some (if 0 < est then ⌊est⌋ else 0)
  | _, _, _ => none

/-- Estimate of sales since the previous run as the specification words it:
max 0 (round ...) instead of truncation. This definition follows the
specification and is compared against estimate_new_sales. -/
def estimate_new_sales_spec (prev curr dt_minutes : Option ℚ) : Option ℤ :=
  match prev, curr, dt_minutes with
  | some p, some c, some dt =>
    let factor := max 0 (min 1 (dt / 1440))
    some (max 0 (round (c - p * (1 - factor))))
  | _, _, _ => none

/-- Severity of the price-discount detector (source: lines 439-448 of main).
Requires a current median, a baseline median, and a total retained history
length of at least p_min_pts; then deep when the median is at or below
deep_pct of the baseline, else soft when at or below soft_pct, else nothing. -/
inductive Severity
  | soft
  | deep
deriving DecidableEq, Repr

/-- Price-discount detector condition (source: main). histLen is the length
of the history before the current point. -/
def severity_of (cfg : Config) (median base_median : Option ℚ) (histLen : ℕ) :
    Option Severity :=
  match median, base_median with
  | some m, some b =>
    if cfg.p_min_pts ≤ histLen then
      if m ≤ b * cfg.deep_pct then some Severity.deep
      else if m ≤ b * cfg.soft_pct then some Severity.soft
      else none
    else none
  | _, _ => none

/-- Volume-spike detector condition (source: main): baseline sales present
and positive, history long enough, and the sales ratio at least the spike
multiplier. -/
def vol_spike_fires (cfg : Config) (sales24h : ℚ) (base_sales : Option ℚ)
    (histLen : ℕ) : Bool :=
  match base_sales with
  | some bs =>
    decide (0 < bs ∧ cfg.v_min_pts ≤ histLen ∧ cfg.spike_mult ≤ sales24h / bs)
  | none => false

/-- Combo cooldown test (source: main): a recorded last combo instant exists
and less than the cooldown has elapsed. An absent or unparseable recorded
instant means not in cooldown. -/
def combo_in_cd (comboAlert : Option ℚ) (now cd_minutes : ℚ) : Bool :=
  match comboAlert with
  | some t => decide (now - t < cd_minutes)
  | none => false

/-- Combo detector step (source: main): fires when a price severity holds,
baseline sales is present and positive, the history reaches the larger of
the two minimums, the sales ratio reaches the spike multiplier, and the combo
cooldown has elapsed; on firing the current instant is recorded. Returns
(fired, updated recorded instant). -/
def combo_step (cfg : Config) (sev : Option Severity) (base_sales : Option ℚ)
    (sales24h : ℚ) (histLen : ℕ) (comboAlert : Option ℚ) (now : ℚ) :
    Bool × Option ℚ :=
  match sev, base_sales with
  | some _, some bs =>
    if 0 < bs ∧ max cfg.p_min_pts cfg.v_min_pts ≤ histLen ∧
        cfg.spike_mult ≤ sales24h / bs then
      if combo_in_cd comboAlert now (cfg.combo_cd_h * 60) then (false, comboAlert)
      else (true, some now)
    else (false, comboAlert)
  | _, _ => (false, comboAlert)

/-- Price-jump pump detector (source: main): current median at least the
short baseline median scaled by 1 + price_jump_pct, with enough short
samples. -/
def price_jump_fires (cfg : Config) (median short_base_med : Option ℚ)
    (nShort : ℕ) : Bool :=
  match median, short_base_med with
  | some m, some sb =>
    decide (cfg.pump_min_pts ≤ nShort ∧ sb * (1 + cfg.price_jump_pct) ≤ m)
  | _, _ => false

/-- Ask-jump pump detector (source: main): current ask at least the short
baseline median scaled by 1 + ask_jump_pct, with enough short samples. -/
def ask_jump_fires (cfg : Config) (ask short_base_med : Option ℚ)
    (nShort : ℕ) : Bool :=
  match ask, short_base_med with
  | some a, some sb =>
    decide (cfg.pump_min_pts ≤ nShort ∧ sb * (1 + cfg.ask_jump_pct) ≤ a)
  | _, _ => false

/-- Last n elements of a list, as the negative slice of the source takes
them: the whole list when n is zero, otherwise the final min n (length)
elements. -/
def last_slice (l : List ℚ) (n : ℕ) : List ℚ :=
  if n = 0 then l else l.drop (l.length - n)

/-- Maximum of a list of rationals; the head seeds the fold so the result is
the genuine maximum on nonempty input. Callers guard emptiness (the source
primitive raises on an empty list, unreachable under the guards below). -/
def list_max (l : List ℚ) : ℚ :=
  l.foldl max (l.headD 0)

/-- Breakout pump detector (source: main): evaluated only when the short
window holds at least max pump_min_pts breakout_n median samples; the local
maximum is taken over the last breakout_n samples when that many exist,
otherwise over all of them, and the detector fires when the current median
reaches that maximum scaled by 1 + breakout_eps. -/
def breakout_fires (cfg : Config) (median : Option ℚ) (short_meds : List ℚ) :
    Bool :=
  match median with
  | some m =>
    if max cfg.pump_min_pts cfg.breakout_n ≤ short_meds.length then
      let local_max :=
        if cfg.breakout_n ≤ short_meds.length then
          list_max (last_slice short_meds cfg.breakout_n)
        else list_max short_meds
      decide (local_max * (1 + cfg.breakout_eps) ≤ m)
    else false
  | none => false

/-- Momentum pump detector (source: main): requires a positive hourly
baseline, an estimated sales count since the previous run, a positive elapsed
time, and a previous median; fires when the current hourly rate reaches the
baseline scaled by momentum_mult and the current median has risen by at least
confirm_price over the previous median. -/
def momentum_fires (cfg : Config) (base_hourly : Option ℚ)
    (sold_since : Option ℤ) (dt_minutes : Option ℚ)
    (last_median median : Option ℚ) : Bool :=
  match base_hourly, sold_since, dt_minutes, last_median with
  | some bh, some ss, some dt, some lm =>
    if 0 < bh ∧ 0 < dt then
      let cur_hourly := (ss : ℚ) / (dt / 60)
      match median with
      | some m =>
        decide (bh * cfg.momentum_mult ≤ cur_hourly ∧
          lm * (1 + cfg.confirm_price) ≤ m)
      | none => false
    else false
  | _, _, _, _ => false

/-- History append-and-prune (source: the comprehension closing the per-item
body). The parse of each stored timestamp is NOT wrapped in a handler there:
one malformed timestamp raises out of the comprehension, modelled as none.
When every timestamp parses, the records at or after the cutoff are kept in
order. -/
def prune_history (hist : List Obs) (cutoff : ℚ) : Option (List Obs) :=
  match hist with
  | [] => some []
  | p :: rest =>
    match p.ts with
    | none => none
    | some t =>
      (prune_history rest cutoff).map fun r =>
        if cutoff ≤ t then p :: r else r

/-- A note recorded for a skipped or failed item. Rendering of note text is
outside the engine; the structured content is what the run records. -/
inductive Note
  | warn_success_false (name : String)
  | item_error (name msg : String)
deriving DecidableEq, Repr

/-- One catalog entry: display name and stable state key. -/
structure Item where
  name : String
  key : String
deriving DecidableEq, Repr

/-- Parsed fetch payload for one item, as the engine consumes it after the
price strings and the volume string have been parsed: success flag, optional
median, optional lowest ask, and the sales count (zero when the volume string
holds no digits). -/
structure FetchData where
  success : Bool
  median : Option ℚ
  ask : Option ℚ
  sales24h : ℕ
deriving DecidableEq, Repr

/-- Pump sub-signal kinds. -/
inductive PumpKind
  | price_jump
  | ask_jump
  | breakout
  | momentum
deriving DecidableEq, Repr

/-- Accumulated outcome of a run: the item-state mapping plus the note and
signal lists the report is assembled from. Signal payloads are kept
structured; text rendering is outside the engine. -/
structure RunAcc where
  state : String → Option ItemState
  notes : List Note
  price_signals : List (Severity × String × ℚ × ℚ × ℚ)
  vol_signals : List (String × ℚ × ℚ × ℚ)
  combo_signals : List String
  pump_signals : List (String × PumpKind)

/-- Message recorded when the close of the per-item body raises on a
malformed stored timestamp. -/
def invalidTsMsg : String := "invalid isoformat string"

/-- One iteration of the per-item loop of main, lines 359-508. The fetch
outcome is supplied as data (the fetch collaborator is external). A raised
fetch failure is caught at the per-item boundary: a note is recorded and
nothing else changes. A success=false payload records a warning note. A
sales count below min_sales skips the item entirely. Otherwise baselines and
detectors run against the history before the current point, the combo
cooldown instant may be rewritten, and the current record is appended with
the 60-day prune; because the stored record aliases the mapping entry, the
combo rewrite stays visible for a pre-existing key even when the prune
raises, while the history and snapshot update is lost in that case and an
error note is recorded. -/
def process_item (cfg : Config) (now : ℚ) (acc : RunAcc)
    (it : Item × Except String FetchData) : RunAcc :=
  let item := it.1
  match it.2 with
  | Except.error e => { acc with notes := acc.notes ++ [Note.item_error item.name e] }
  | Except.ok d =>
    if d.success = false then
      { acc with notes := acc.notes ++ [Note.warn_success_false item.name] }
    else if d.sales24h < cfg.min_sales then acc
    else
      let rec0 := (acc.state item.key).getD ItemState.empty
      let keyExisted := (acc.state item.key).isSome
      let last := rec0.last
      let last_median := last.bind (fun l => l.median)
      let last_sales := last.map (fun l => l.sales24h)
      let last_ts := last.bind (fun l => l.ts)
      let last_ask := last.bind (fun l => l.ask)
      let dt_minutes := last_ts.map (fun t => now - t)
      let sold_since := estimate_new_sales last_sales (some (d.sales24h : ℚ)) dt_minutes
      let _ask_change := match d.ask, last_ask with
        | some a, some la => if 0 < la then some (a / la - 1) else none
        | _, _ => none
      let hist_before := rec0.history
      let bl := baselines_from_history ⟨none, hist_before, none⟩ now
        (min cfg.p_min_pts cfg.v_min_pts)
      let base_median := bl.1
      let base_sales := bl.2.1
      let short_meds := (short_window hist_before now cfg.short_minutes Field.median).1
      let short_sales_vals :=
        (short_window hist_before now cfg.short_minutes Field.sales24h).1
      let short_base_med := robust_median short_meds
      let _short_base_sales := robust_mean short_sales_vals
      let base_hourly := match base_sales with
        | some bs => if bs ≠ 0 then some (bs / 24) else none
        | none => none
      let sev := severity_of cfg d.median base_median hist_before.length
      let price_sigs := match sev, d.median, base_median with
        | some s, some m, some b =>
          acc.price_signals ++ [(s, item.name, m, b, (1 - m / b) * 100)]
        | _, _, _ => acc.price_signals
      let vol_sigs :=
        if vol_spike_fires cfg (d.sales24h : ℚ) base_sales hist_before.length then
          acc.vol_signals ++
            [(item.name, (d.sales24h : ℚ), base_sales.getD 0,
              (d.sales24h : ℚ) / base_sales.getD 0)]
        else acc.vol_signals
      let combo := combo_step cfg sev base_sales (d.sales24h : ℚ)
        hist_before.length rec0.comboAlert now
      let combo_sigs :=
        if combo.1 then acc.combo_signals ++ [item.name] else acc.combo_signals
      let rec1 : ItemState := { rec0 with comboAlert := combo.2 }
      let pumps0 :=
        if price_jump_fires cfg d.median short_base_med short_meds.length then
          acc.pump_signals ++ [(item.name, PumpKind.price_jump)]
        else acc.pump_signals
      let pumps1 :=
        if ask_jump_fires cfg d.ask short_base_med short_meds.length then
          pumps0 ++ [(item.name, PumpKind.ask_jump)]
        else pumps0
      let pumps2 :=
        if breakout_fires cfg d.median short_meds then
          pumps1 ++ [(item.name, PumpKind.breakout)]
        else pumps1
      let pumps3 :=
        if momentum_fires cfg base_hourly sold_since dt_minutes last_median d.median then
          pumps2 ++ [(item.name, PumpKind.momentum)]
        else pumps2
      let state_mid := fun k =>
        if k = item.key then (if keyExisted then some rec1 else none) else acc.state k
      let newObs : Obs := ⟨some now, d.median, some (d.sales24h : ℚ)⟩
      match prune_history (hist_before ++ [newObs]) (now - 60 * 1440) with
      | none =>
        { acc with
          state := state_mid
          notes := acc.notes ++ [Note.item_error item.name invalidTsMsg]
          price_signals := price_sigs
          vol_signals := vol_sigs
          combo_signals := combo_sigs
          pump_signals := pumps3 }
      | some h =>
        let rec2 : ItemState :=
          { rec1 with
            history := h
            last := some ⟨d.median, d.ask, (d.sales24h : ℚ), some now⟩ }
        { acc with
          state := fun k => if k = item.key then some rec2 else acc.state k
          price_signals := price_sigs
          vol_signals := vol_sigs
          combo_signals := combo_sigs
          pump_signals := pumps3 }

/-- The per-item loop of a whole run, folding process_item over the catalog
paired with each fetch outcome. -/
def run_items (cfg : Config) (now : ℚ) (acc : RunAcc)
    (l : List (Item × Except String FetchData)) : RunAcc :=
  l.foldl (process_item cfg now) acc

/-- State-passing form of the baseline computation. The source function only
reads the record (the windowed queries build fresh lists), so the record it
leaves behind is the record it received; this form makes the no-mutation and
idempotence property statable. -/
def baselines_step (rec : ItemState) (now : ℚ) (min_points : ℕ) :
    (Option ℚ × Option ℚ × WindowUsed × ℕ) × ItemState :=
  (baselines_from_history rec now min_points, rec)

/-- An empty run accumulator. -/
def emptyAcc : RunAcc :=
  { state := fun _ => none
    notes := []
    price_signals := []
    vol_signals := []
    combo_signals := []
    pump_signals := [] }

/-- Concrete instant used by the counterexample histories below. -/
def c1now : ℚ := 100000

/-- A record 10 days old: outside the 7-day window, inside the retained
history. -/
def c1old : Obs := ⟨some (c1now - 14400), some 100, some 10⟩

/-- A record 100 minutes old: inside the 3-day window. -/
def c1new : Obs := ⟨some (c1now - 100), some 100, some 10⟩

/-- Twelve retained records of which only six are within the 7-day window:
the baseline falls back to the 3-day tier with six samples, while the total
history length is twelve. -/
def c1hist : List Obs :=
  [c1old, c1old, c1old, c1old, c1old, c1old,
   c1new, c1new, c1new, c1new, c1new, c1new]

/-- Item state holding c1hist. -/
def c1rec : ItemState := ⟨none, c1hist, none⟩

/-- Five short-window median samples 100, 101, 99, 102, 100, oldest first:
fewer than the default breakout_points of six. -/
def c2hist : List Obs :=
  [⟨some (c1now - 100), some 100, some 5⟩,
   ⟨some (c1now - 80), some 101, some 5⟩,
   ⟨some (c1now - 60), some 99, some 5⟩,
   ⟨some (c1now - 40), some 102, some 5⟩,
   ⟨some (c1now - 20), some 100, some 5⟩]

/-- A record whose stored timestamp string is malformed. -/
def badObs : Obs := ⟨none, some 100, some 5⟩

/-- Catalog entry for the malformed-timestamp scenario. -/
def c4item : Item := ⟨"item-x", "item-x"⟩

/-- Stored state whose history holds one malformed-timestamp record. -/
def c4state : ItemState := ⟨none, [badObs], none⟩

/-- Run accumulator holding c4state under the key of c4item. -/
def c4acc : RunAcc :=
  { emptyAcc with state := fun k => if k = c4item.key then some c4state else none }

/-- Successful fetch payload for the malformed-timestamp scenario. -/
def c4fetch : FetchData := ⟨true, some 100, none, 5⟩

/-- Catalog entry for the below-threshold-sales scenario. -/
def c10item : Item := ⟨"item-y", "item-y"⟩

/-- Windowed queries return nothing when the requested field is absent from
every record of the history. -/
lemma window_values_field_none {hist : List Obs} {now days : ℚ} {key : Field}
    (h : ∀ p ∈ hist, p.getField key = none) :
    window_values hist now days key = [] := by
  simp only [window_values, List.filterMap_eq_nil_iff]
  intro p hp
  cases hts : p.ts with
  | none => rfl
  | some t => simp [h p hp]

/-- Claim C1, counterexample: with the default configuration, a history of
twelve retained records of which only six fall in the window that supplies
the baseline (the 3-day tier), the baseline sample count is six, below the
configured minimum of twelve for every detector family, and yet the
price-discount, volume-spike and combo detectors all fire on an extreme
observation, because the code gates on the total retained history length
rather than on the window sample count. -/
theorem C1_counterexample :
    baseline_window_counts c1rec c1now
        (min defaultConfig.p_min_pts defaultConfig.v_min_pts) = (6, 6) ∧
    6 < defaultConfig.p_min_pts ∧ 6 < defaultConfig.v_min_pts ∧
    (baselines_from_history c1rec c1now
        (min defaultConfig.p_min_pts defaultConfig.v_min_pts)).2.2.1 =
      WindowUsed.three ∧
    severity_of defaultConfig (some 50)
      (baselines_from_history c1rec c1now
        (min defaultConfig.p_min_pts defaultConfig.v_min_pts)).1
      c1rec.history.length = some Severity.deep ∧
    vol_spike_fires defaultConfig 20
      (baselines_from_history c1rec c1now
        (min defaultConfig.p_min_pts defaultConfig.v_min_pts)).2.1
      c1rec.history.length = true ∧
    (combo_step defaultConfig
      (severity_of defaultConfig (some 50)
        (baselines_from_history c1rec c1now
          (min defaultConfig.p_min_pts defaultConfig.v_min_pts)).1
        c1rec.history.length)
      (baselines_from_history c1rec c1now
        (min defaultConfig.p_min_pts defaultConfig.v_min_pts)).2.1
      20 c1rec.history.length none c1now).1 = true := by
  have hmin : min defaultConfig.p_min_pts defaultConfig.v_min_pts = 12 := rfl
  have hb : baselines_from_history c1rec c1now 12 =
      (some 100, some 10, WindowUsed.three, 12) := by
    norm_num [baselines_from_history, c1rec, c1hist, c1now, c1old, c1new,
      window_values, Obs.getField, robust_median, robust_mean, median_of,
      List.insertionSort, List.orderedInsert, List.filterMap_cons]
    constructor <;> intro h <;> simp at h
  have hc : baseline_window_counts c1rec c1now 12 = (6, 6) := by
    norm_num [baseline_window_counts, c1rec, c1hist, c1now, c1old, c1new,
      window_values, Obs.getField, List.filterMap_cons]
  have hsev : severity_of defaultConfig (some 50) (some 100) 12 =
      some Severity.deep := by
    norm_num [severity_of, defaultConfig]
  have hlen : c1rec.history.length = 12 := rfl
  rw [hmin, hlen, hb]
  refine ⟨hc, by decide, by decide, rfl, hsev, ?_, ?_⟩
  · norm_num [vol_spike_fires, defaultConfig]
  · rw [hsev]
    norm_num [combo_step, combo_in_cd, defaultConfig]

/-- Claim C1, amended: the price-discount, volume-spike and combo detectors
do not fire when the TOTAL RETAINED HISTORY LENGTH is below the detector
family minimum (price and volume: their own min_points; combo: the larger of
the two), regardless of how extreme the discount or ratio is; the sample
count of the window that supplied the baseline is not consulted. -/
theorem C1_amended_history_length_gate (cfg : Config)
    (median base_median base_sales : Option ℚ) (sev : Option Severity)
    (sales : ℚ) (histLen : ℕ) (comboAlert : Option ℚ) (now : ℚ) :
    (histLen < cfg.p_min_pts → severity_of cfg median base_median histLen = none) ∧
    (histLen < cfg.v_min_pts →
      vol_spike_fires cfg sales base_sales histLen = false) ∧
    (histLen < max cfg.p_min_pts cfg.v_min_pts →
      (combo_step cfg sev base_sales sales histLen comboAlert now).1 = false) := by
  refine ⟨?_, ?_, ?_⟩
  · intro h
    cases median with
    | none => rfl
    | some m =>
      cases base_median with
      | none => rfl
      | some b =>
        simp only [severity_of]
        rw [if_neg (Nat.not_le.mpr h)]
  · intro h
    cases base_sales with
    | none => rfl
    | some bs =>
      simp only [vol_spike_fires, decide_eq_false_iff_not]
      intro hc
      exact absurd hc.2.1 (Nat.not_le.mpr h)
  · intro h
    cases sev with
    | none => cases base_sales <;> rfl
    | some s =>
      cases base_sales with
      | none => rfl
      | some bs =>
        simp only [combo_step]
        rw [if_neg fun hc => absurd hc.2.1 (Nat.not_le.mpr h)]

/-- Claim C1, witness: with only three retained records none of the three
detectors fires, even on a median at one percent of baseline and a
thousandfold sales ratio. -/
theorem C1_amended_witness :
    severity_of defaultConfig (some 1) (some 100) 3 = none ∧
    vol_spike_fires defaultConfig 1000 (some 1) 3 = false ∧
    (combo_step defaultConfig (some Severity.deep) (some 1) 1000 3 none 0).1 =
      false :=
  ⟨(C1_amended_history_length_gate defaultConfig (some 1) (some 100) (some 1)
      (some Severity.deep) 1000 3 none 0).1 (by decide),
   (C1_amended_history_length_gate defaultConfig (some 1) (some 100) (some 1)
      (some Severity.deep) 1000 3 none 0).2.1 (by decide),
   (C1_amended_history_length_gate defaultConfig (some 1) (some 100) (some 1)
      (some Severity.deep) 1000 3 none 0).2.2 (by decide)⟩

/-- Claim C2, counterexample: in the exact scenario of the claim - five
short-window median samples 100, 101, 99, 102, 100, breakout_points six,
breakout_extra_pct 0.03, current median 110 - the Breakout detector does NOT
fire, because its guard requires at least max pump_min_points breakout_points
short samples and the use-all-available fallback is unreachable. -/
theorem C2_counterexample :
    (short_window c2hist c1now 120 Field.median).1 = [100, 101, 99, 102, 100] ∧
    defaultConfig.breakout_n = 6 ∧ defaultConfig.pump_min_pts = 4 ∧
    defaultConfig.breakout_eps = 3 / 100 ∧
    breakout_fires defaultConfig (some 110)
      ((short_window c2hist c1now 120 Field.median).1) = false := by
  have hs : (short_window c2hist c1now 120 Field.median).1 =
      [100, 101, 99, 102, 100] := by
    norm_num [short_window, c2hist, c1now, Obs.getField]
  refine ⟨hs, rfl, rfl, rfl, ?_⟩
  rw [hs]
  norm_num [breakout_fires, defaultConfig]

/-- Claim C2, amended: whenever the short window holds fewer than
breakout_points median samples the Breakout detector does not fire at all
(even with at least pump_min_points samples and however extreme the current
median); the evaluate-on-all-available branch of the source is dead code, as
the guard already demands at least max pump_min_points breakout_points
samples. -/
theorem C2_amended_breakout_guard (cfg : Config) (median : Option ℚ)
    (short_meds : List ℚ) (h : short_meds.length < cfg.breakout_n) :
    breakout_fires cfg median short_meds = false := by
  cases median with
  | none => rfl
  | some m =>
    have h' : ¬ max cfg.pump_min_pts cfg.breakout_n ≤ short_meds.length :=
      fun hc => absurd (le_trans (le_max_right _ _) hc) (Nat.not_le.mpr h)
    simp only [breakout_fires]
    rw [if_neg h']

/-- Claim C2, witness: the five-sample scenario instantiates the amended
claim. -/
theorem C2_amended_witness :
    ([100, 101, 99, 102, 100] : List ℚ).length < defaultConfig.breakout_n ∧
    breakout_fires defaultConfig (some 110) [100, 101, 99, 102, 100] = false :=
  ⟨by decide, C2_amended_breakout_guard defaultConfig (some 110) _ (by decide)⟩

/-- Claim C3: the baseline calculator follows the graduated fallback exactly:
the 7-day window with its robust median and mean when both 7-day collections
reach min_points, else the 3-day window when both 3-day collections reach
max 6 (min_points / 2), else the entire retained history; and a baseline
whose field has no historical values at all is none, not zero and not a
failure. -/
theorem C3_baseline_graduated_fallback (rec : ItemState) (now : ℚ) (mp : ℕ) :
    (mp ≤ (window_values rec.history now 7 Field.median).length ∧
     mp ≤ (window_values rec.history now 7 Field.sales24h).length →
      baselines_from_history rec now mp =
        (robust_median (window_values rec.history now 7 Field.median),
         robust_mean (window_values rec.history now 7 Field.sales24h),
         WindowUsed.seven, rec.history.length)) ∧
    (¬(mp ≤ (window_values rec.history now 7 Field.median).length ∧
       mp ≤ (window_values rec.history now 7 Field.sales24h).length) →
      max 6 (mp / 2) ≤ (window_values rec.history now 3 Field.median).length ∧
      max 6 (mp / 2) ≤ (window_values rec.history now 3 Field.sales24h).length →
      baselines_from_history rec now mp =
        (robust_median (window_values rec.history now 3 Field.median),
         robust_mean (window_values rec.history now 3 Field.sales24h),
         WindowUsed.three, rec.history.length)) ∧
    (¬(mp ≤ (window_values rec.history now 7 Field.median).length ∧
       mp ≤ (window_values rec.history now 7 Field.sales24h).length) →
      ¬(max 6 (mp / 2) ≤ (window_values rec.history now 3 Field.median).length ∧
        max 6 (mp / 2) ≤ (window_values rec.history now 3 Field.sales24h).length) →
      baselines_from_history rec now mp =
        (robust_median (rec.history.filterMap fun p => p.median),
         robust_mean (rec.history.filterMap fun p => p.sales24h),
         WindowUsed.all, rec.history.length)) ∧
    ((∀ p ∈ rec.history, p.median = none) →
      (baselines_from_history rec now mp).1 = none) ∧
    ((∀ p ∈ rec.history, p.sales24h = none) →
      (baselines_from_history rec now mp).2.1 = none) := by
  refine ⟨?_, ?_, ?_, ?_, ?_⟩
  · intro h
    simp only [baselines_from_history]
    rw [if_neg (by omega)]
  · intro h1 h2
    simp only [baselines_from_history]
    rw [if_pos (by omega), if_pos h2]
  · intro h1 h2
    simp only [baselines_from_history]
    rw [if_pos (by omega), if_neg h2]
  · intro hmed
    have h3 : window_values rec.history now 3 Field.median = [] :=
      window_values_field_none fun p hp => hmed p hp
    have h7 : window_values rec.history now 7 Field.median = [] :=
      window_values_field_none fun p hp => hmed p hp
    have hall : rec.history.filterMap (fun p => p.median) = [] :=
      List.filterMap_eq_nil_iff.mpr hmed
    simp only [baselines_from_history]
    by_cases hc1 : (window_values rec.history now 7 Field.median).length < mp ∨
        (window_values rec.history now 7 Field.sales24h).length < mp
    · rw [if_pos hc1]
      by_cases hc2 :
          max 6 (mp / 2) ≤ (window_values rec.history now 3 Field.median).length ∧
          max 6 (mp / 2) ≤ (window_values rec.history now 3 Field.sales24h).length
      · exfalso
        have := hc2.1
        rw [h3] at this
        simp at this
      · rw [if_neg hc2]
        simp [hall, robust_median]
    · rw [if_neg hc1]
      simp [h7, robust_median]
  · intro hsal
    have h3 : window_values rec.history now 3 Field.sales24h = [] :=
      window_values_field_none fun p hp => hsal p hp
    have h7 : window_values rec.history now 7 Field.sales24h = [] :=
      window_values_field_none fun p hp => hsal p hp
    have hall : rec.history.filterMap (fun p => p.sales24h) = [] :=
      List.filterMap_eq_nil_iff.mpr hsal
    simp only [baselines_from_history]
    by_cases hc1 : (window_values rec.history now 7 Field.median).length < mp ∨
        (window_values rec.history now 7 Field.sales24h).length < mp
    · rw [if_pos hc1]
      by_cases hc2 :
          max 6 (mp / 2) ≤ (window_values rec.history now 3 Field.median).length ∧
          max 6 (mp / 2) ≤ (window_values rec.history now 3 Field.sales24h).length
      · exfalso
        have := hc2.2
        rw [h3] at this
        simp at this
      · rw [if_neg hc2]
        simp [hall, robust_mean]
    · rw [if_neg hc1]
      simp [h7, robust_mean]

/-- Claim C3, witness: on an empty history with min_points zero the first
tier applies and the median baseline is absent. -/
theorem C3_witness :
    baselines_from_history (ItemState.mk none [] none) 0 0 =
      (robust_median (window_values [] 0 7 Field.median),
       robust_mean (window_values [] 0 7 Field.sales24h), WindowUsed.seven,
       (ItemState.mk none [] none).history.length) ∧
    (baselines_from_history (ItemState.mk none [] none) 0 0).1 = none :=
  ⟨(C3_baseline_graduated_fallback ⟨none, [], none⟩ 0 0).1
    ⟨Nat.zero_le _, Nat.zero_le _⟩,
   (C3_baseline_graduated_fallback ⟨none, [], none⟩ 0 0).2.2.2.1
    fun p hp => absurd hp (List.not_mem_nil p)⟩

/-- Claim C4: the claim is right and the code is wrong. The close of the
per-item body re-parses every stored timestamp with no local handler, so one
malformed stored timestamp raises (modelled: prune_history returns none),
the item's history and snapshot update is aborted, and an error note is
recorded - instead of the malformed entry being dropped silently as the
specification demands and as every other timestamp parse in the program
does. -/
theorem C4_malformed_timestamp_aborts_update :
    prune_history ([badObs] ++ [Obs.mk (some 0) (some 100) (some 5)])
      (0 - 60 * 1440) = none ∧
    (process_item defaultConfig 0 c4acc (c4item, Except.ok c4fetch)).state
      c4item.key = some c4state ∧
    (process_item defaultConfig 0 c4acc (c4item, Except.ok c4fetch)).notes =
      [Note.item_error c4item.name invalidTsMsg] := by
  refine ⟨rfl, ?_, ?_⟩ <;>
    norm_num [process_item, c4acc, c4state, c4item, c4fetch, emptyAcc, badObs,
      baselines_from_history, window_values, short_window, robust_median,
      robust_mean, median_of, severity_of, vol_spike_fires, combo_step,
      combo_in_cd, price_jump_fires, ask_jump_fires, breakout_fires,
      momentum_fires, estimate_new_sales, prune_history, Obs.getField,
      List.filterMap_cons, defaultConfig, ItemState.empty]

/-- Claim C5: the combo cooldown behaves as specified. For a qualifying
observation: when not in cooldown the combo fires and records the firing
instant; with the last firing recorded at T, an identical qualifying
observation at T + e with 0 ≤ e strictly below the cooldown does not fire;
at T + cooldown + e with e positive it fires again; and being in cooldown is
exactly: a recorded instant exists and now minus it is strictly below the
cooldown duration. -/
theorem C5_combo_cooldown (cfg : Config) (sev : Severity) (bs sales : ℚ)
    (histLen : ℕ) (la : Option ℚ) (T ε : ℚ)
    (hq : 0 < bs ∧ max cfg.p_min_pts cfg.v_min_pts ≤ histLen ∧
      cfg.spike_mult ≤ sales / bs) :
    (combo_in_cd la T (cfg.combo_cd_h * 60) = false →
      combo_step cfg (some sev) (some bs) sales histLen la T = (true, some T)) ∧
    (0 ≤ ε → ε < cfg.combo_cd_h * 60 →
      (combo_step cfg (some sev) (some bs) sales histLen (some T) (T + ε)).1 =
        false) ∧
    (0 < ε →
      (combo_step cfg (some sev) (some bs) sales histLen (some T)
        (T + cfg.combo_cd_h * 60 + ε)).1 = true) ∧
    combo_in_cd none T (cfg.combo_cd_h * 60) = false ∧
    (∀ now last, combo_in_cd (some last) now (cfg.combo_cd_h * 60) =
      decide (now - last < cfg.combo_cd_h * 60)) := by
  refine ⟨?_, ?_, ?_, rfl, fun _ _ => rfl⟩
  · intro hcd
    simp only [combo_step]
    rw [if_pos hq, hcd]
    rfl
  · intro hε0 hεlt
    simp only [combo_step]
    rw [if_pos hq]
    have : combo_in_cd (some T) (T + ε) (cfg.combo_cd_h * 60) = true := by
      simp only [combo_in_cd, decide_eq_true_eq]
      linarith
    rw [this]
    rfl
  · intro hε
    simp only [combo_step]
    rw [if_pos hq]
    have : combo_in_cd (some T) (T + cfg.combo_cd_h * 60 + ε)
        (cfg.combo_cd_h * 60) = false := by
      simp only [combo_in_cd, decide_eq_false_iff_not]
      intro hc
      linarith
    rw [this]
    rfl

/-- Claim C5, witness: with the default 6-hour cooldown (360 minutes), a
qualifying observation fires at instant 0 and records it, does not fire at
instant 100, and fires again at instant 361. -/
theorem C5_witness :
    combo_step defaultConfig (some Severity.deep) (some 10) 20 12 none 0 =
      (true, some 0) ∧
    (combo_step defaultConfig (some Severity.deep) (some 10) 20 12 (some 0) 100).1 =
      false ∧
    (combo_step defaultConfig (some Severity.deep) (some 10) 20 12 (some 0) 361).1 =
      true := by
  have hq : (0:ℚ) < 10 ∧
      max defaultConfig.p_min_pts defaultConfig.v_min_pts ≤ 12 ∧
      defaultConfig.spike_mult ≤ 20 / 10 := by
    refine ⟨by norm_num, by decide, by norm_num [defaultConfig]⟩
  have h := C5_combo_cooldown defaultConfig Severity.deep 10 20 12 none 0 100 hq
  have h2 := C5_combo_cooldown defaultConfig Severity.deep 10 20 12 none 0 1 hq
  refine ⟨h.1 rfl, ?_, ?_⟩
  · have := h.2.1 (by norm_num) (by norm_num [defaultConfig])
    simpa [defaultConfig] using this
  · have := h2.2.2.1 (by norm_num)
    have he : (0:ℚ) + defaultConfig.combo_cd_h * 60 + 1 = 361 := by
      norm_num [defaultConfig]
    rw [he] at this
    exact this

/-- Claim C6, counterexample: at previous sales 3, current sales 5, elapsed
720 minutes, the decayed estimate is 3.5; the code truncates to 3 while the
claimed formula rounds to 4, so the code does not compute
max 0 (round ...). -/
theorem C6_counterexample :
    estimate_new_sales (some 3) (some 5) (some 720) = some 3 ∧
    estimate_new_sales_spec (some 3) (some 5) (some 720) = some 4 ∧
    estimate_new_sales (some 3) (some 5) (some 720) ≠
      estimate_new_sales_spec (some 3) (some 5) (some 720) := by
  have h1 : estimate_new_sales (some 3) (some 5) (some 720) = some 3 := by
    norm_num [estimate_new_sales]
  have h2 : estimate_new_sales_spec (some 3) (some 5) (some 720) = some 4 := by
    norm_num [estimate_new_sales_spec, round_eq]
  exact ⟨h1, h2, by rw [h1, h2]; decide⟩

/-- Claim C6, amended: estimate_new_sales returns none whenever any input is
none, and otherwise max 0 of the FLOOR (truncation, not rounding) of
current minus previous times (1 - clamp (dt / 1440) 0 1); the result is never
negative. -/
theorem C6_amended_truncation (p c d : ℚ) (op oc od : Option ℚ) :
    (op = none ∨ oc = none ∨ od = none → estimate_new_sales op oc od = none) ∧
    estimate_new_sales (some p) (some c) (some d) =
      some (max 0 ⌊c - p * (1 - max 0 (min 1 (d / 1440)))⌋) ∧
    (∀ n : ℤ, estimate_new_sales op oc od = some n → 0 ≤ n) := by
  refine ⟨?_, ?_, ?_⟩
  · intro h
    cases op <;> cases oc <;> cases od <;> simp_all [estimate_new_sales]
  · unfold estimate_new_sales
    simp only
    split
    · next hpos =>
      congr 1
      exact (max_eq_right (Int.floor_nonneg.mpr (le_of_lt hpos))).symm
    · next hneg =>
      congr 1
      exact (max_eq_left (Int.floor_nonpos (le_of_not_lt hneg))).symm
  · intro n hn
    cases op with
    | none => simp [estimate_new_sales] at hn
    | some vp =>
      cases oc with
      | none => simp [estimate_new_sales] at hn
      | some vc =>
        cases od with
        | none => simp [estimate_new_sales] at hn
        | some vd =>
          unfold estimate_new_sales at hn
          simp only [Option.some_inj] at hn
          subst hn
          split
          · next hpos => exact Int.floor_nonneg.mpr (le_of_lt hpos)
          · exact le_refl 0

/-- Claim C6, witness: a none input propagates, and the all-present case at
previous 3, current 5, elapsed 720 minutes equals the floor formula. -/
theorem C6_amended_witness :
    estimate_new_sales none (some 5) (some 10) = none ∧
    estimate_new_sales (some 3) (some 5) (some 720) =
      some (max 0 ⌊(5:ℚ) - 3 * (1 - max 0 (min 1 (720 / 1440)))⌋) :=
  ⟨(C6_amended_truncation 3 5 720 none (some 5) (some 10)).1 (Or.inl rfl),
   (C6_amended_truncation 3 5 720 none (some 5) (some 10)).2.1⟩

/-- Claim C7: windowed queries use an inclusive lower bound. Membership in
the long-window query is exactly: some record of the history has a parseable
timestamp at or after now minus the span and carries the value; a record
timestamped exactly at the bound is included, and one any positive amount
below the bound is excluded, for both the day-window and the minute-window
query. -/
theorem C7_window_inclusive_lower_bound (hist : List Obs)
    (now days minutes ε v : ℚ) (mv sv : Option ℚ) (key : Field) (hε : 0 < ε) :
    (v ∈ window_values hist now days key ↔
      ∃ p ∈ hist, (∃ t, p.ts = some t ∧ now - days * 1440 ≤ t) ∧
        p.getField key = some v) ∧
    window_values [⟨some (now - days * 1440), some v, some v⟩] now days key =
      [v] ∧
    window_values [⟨some (now - days * 1440 - ε), mv, sv⟩] now days key = [] ∧
    (short_window [⟨some (now - minutes), some v, some v⟩] now minutes key).1 =
      [v] ∧
    (short_window [⟨some (now - minutes - ε), mv, sv⟩] now minutes key).1 =
      [] := by
  refine ⟨?_, ?_, ?_, ?_, ?_⟩
  · simp only [window_values, List.mem_filterMap]
    constructor
    · rintro ⟨p, hp, hf⟩
      refine ⟨p, hp, ?_⟩
      cases hts : p.ts with
      | none => rw [hts] at hf; exact absurd hf (by simp)
      | some t =>
        rw [hts] at hf
        change (if now - days * 1440 ≤ t then p.getField key else none) = some v
          at hf
        by_cases hcut : now - days * 1440 ≤ t
        · rw [if_pos hcut] at hf
          exact ⟨⟨t, rfl, hcut⟩, hf⟩
        · rw [if_neg hcut] at hf
          exact absurd hf (by simp)
    · rintro ⟨p, hp, ⟨t, hts, hcut⟩, hf⟩
      refine ⟨p, hp, ?_⟩
      rw [hts]
      change (if now - days * 1440 ≤ t then p.getField key else none) = some v
      rw [if_pos hcut]
      exact hf
  · simp only [window_values, List.filterMap_cons, List.filterMap_nil]
    rw [if_pos (le_refl _)]
    cases key <;> rfl
  · simp only [window_values, List.filterMap_cons, List.filterMap_nil]
    rw [if_neg (by linarith)]
  · simp only [short_window]
    rw [if_pos (by linarith)]
    cases key <;> rfl
  · simp only [short_window]
    rw [if_neg (by linarith)]

/-- Claim C7, witness: at now 10080, span 7 days, a record at instant 0 sits
exactly on the bound and is returned; a record one minute earlier is not. -/
theorem C7_witness :
    ((5:ℚ) ∈ window_values [⟨some 0, some 5, some 5⟩] (7 * 1440) 7 Field.median ↔
      ∃ p ∈ [(⟨some 0, some 5, some 5⟩ : Obs)],
        (∃ t, p.ts = some t ∧ 7 * 1440 - 7 * 1440 ≤ t) ∧
          p.getField Field.median = some 5) ∧
    window_values [⟨some (7 * 1440 - 7 * 1440), some 5, some 5⟩] (7 * 1440) 7
      Field.median = [5] ∧
    window_values [⟨some (7 * 1440 - 7 * 1440 - 1), none, none⟩] (7 * 1440) 7
      Field.median = [] := by
  have h := C7_window_inclusive_lower_bound [(⟨some 0, some 5, some 5⟩ : Obs)]
    (7 * 1440) 7 120 1 5 none none Field.median (by norm_num)
  refine ⟨?_, h.2.1, h.2.2.1⟩
  have := h.1
  norm_num at this ⊢
  exact this

/-- Claim C8: the baseline computation is pure and idempotent: in
state-passing form it hands back the history state unchanged, and a second
computation on that unchanged state yields the identical result. -/
theorem C8_baselines_pure_idempotent (rec : ItemState) (now : ℚ) (mp : ℕ) :
    (baselines_step rec now mp).2 = rec ∧
    (baselines_step ((baselines_step rec now mp).2) now mp).1 =
      (baselines_step rec now mp).1 :=
  ⟨rfl, rfl⟩

/-- Claim C9: a fetch failure for one item is absorbed at the per-item
boundary: the step only appends an error note, leaving the state mapping and
every signal list untouched, and a run over any catalog containing the
failing item equals the run that processes the items before it, records the
note, and continues with the items after it - no failure aborts the run. -/
theorem C9_item_failure_isolated (cfg : Config) (now : ℚ) (acc : RunAcc)
    (xs ys : List (Item × Except String FetchData)) (it : Item) (e : String) :
    process_item cfg now acc (it, Except.error e) =
      { acc with notes := acc.notes ++ [Note.item_error it.name e] } ∧
    (process_item cfg now acc (it, Except.error e)).state = acc.state ∧
    run_items cfg now acc (xs ++ (it, Except.error e) :: ys) =
      run_items cfg now
        { run_items cfg now acc xs with
            notes := (run_items cfg now acc xs).notes ++ [Note.item_error it.name e] }
        ys := by
  refine ⟨rfl, rfl, ?_⟩
  simp only [run_items, List.foldl_append, List.foldl_cons]
  rfl

/-- Claim C10: a successful fetch whose parsed sales count is below
min_daily_sales skips the item entirely: the per-item step returns the
accumulator unchanged - no detector runs, no signal or note is emitted, and
the stored item state is untouched. -/
theorem C10_below_min_sales_skip (cfg : Config) (now : ℚ) (acc : RunAcc)
    (it : Item) (d : FetchData) (h1 : d.success = true)
    (h2 : d.sales24h < cfg.min_sales) :
    process_item cfg now acc (it, Except.ok d) = acc := by
  unfold process_item
  simp only [h1]
  rw [if_neg (by simp), if_pos h2]

/-- Claim C10, witness: a successful zero-sales payload under the default
threshold of one leaves an empty accumulator unchanged. -/
theorem C10_witness :
    process_item defaultConfig 0 emptyAcc
      (c10item, Except.ok ⟨true, none, none, 0⟩) = emptyAcc :=
  C10_below_min_sales_skip defaultConfig 0 emptyAcc c10item ⟨true, none, none, 0⟩
    rfl (by decide)

end Monitor
